import Mathlib

/-!
Shallow embedding of `src/poliastro/plotting/_base.py` (the `Trajectory`
record, `BaseOrbitPlotter` and `Mixin2D`), together with theorems checking
the natural-language specification of the module against it.

Modelling conventions:
* Lengths and times are rationals, measured in kilometres (the code converts
  everything to `u.km` before comparing).
* Coordinate samples are Cartesian 3-vectors of rationals (`_plot_trajectory`
  normalises its input with `represent_as(CartesianRepresentation)`, so all
  stored coordinates are Cartesian).
* The Euclidean norm used by `coordinates.norm()` and `util.norm` is the real
  square root of the rational squared norm.
* `self._attractor_radius` starts at `np.inf * u.km`; it is modelled as
  `WithTop ℝ` with `⊤` for the infinite initial value.
* Python exceptions are modelled by returning the pair of the state as it is
  when the exception is raised and an `Except String Unit` carrying the
  message, so that mutation-before-raise behaviour is provable.  This
  includes NumPy's `ValueError` when `_redraw_attractor` reduces an empty
  coordinate array, which in the source fires *after* the trajectory was
  appended.
* Backend hooks (`_get_colors`, `_draw_sphere`, `_draw_point`,
  `_plot_coordinates`) are abstract in the source (`NotImplementedError`);
  the colour set produced by `_get_colors(color, trail)` is therefore taken
  as a parameter, and drawing calls do not touch the modelled state.
-/

/-- A Cartesian 3-vector with rational components. -/
structure Vec3 where
  x : ℚ
  y : ℚ
  z : ℚ
deriving DecidableEq, Repr

instance : Add Vec3 := ⟨fun a b => ⟨a.x + b.x, a.y + b.y, a.z + b.z⟩⟩

instance : Sub Vec3 := ⟨fun a b => ⟨a.x - b.x, a.y - b.y, a.z - b.z⟩⟩

instance : SMul ℚ Vec3 := ⟨fun c v => ⟨c * v.x, c * v.y, c * v.z⟩⟩

/-- Dot product of two 3-vectors. -/
def Vec3.dot (a b : Vec3) : ℚ :=
  a.x * b.x + a.y * b.y + a.z * b.z

/-- Squared Euclidean norm. -/
def Vec3.normSq (v : Vec3) : ℚ :=
  v.dot v

/-- Euclidean norm (`astropy`'s `.norm()` / `poliastro.util.norm`). -/
noncomputable def Vec3.norm (v : Vec3) : ℝ :=
  Real.sqrt ((v.normSq : ℚ) : ℝ)

/-- The `Trajectory` namedtuple:
`(coordinates, position, label, colors, dashed)`. -/
structure Trajectory where
  coordinates : List Vec3
  position : Option Vec3
  label : String
  colors : List String
  dashed : Bool
deriving DecidableEq, Repr

/-- An attractor body: the only attributes the module reads are `.R`
(physical radius, here in km) and `.name`. -/
structure Body where
  name : String
  R : ℚ
deriving DecidableEq, Repr

/-- The `Planes` enumeration from `poliastro.frames`. -/
inductive Planes where
  | EARTH_EQUATOR
  | EARTH_ECLIPTIC
deriving DecidableEq, Repr

/-- Mutable state of a `BaseOrbitPlotter` instance. -/
structure PlotterState where
  num_points : ℕ
  trajectories : List Trajectory
  attractor : Option Body
  plane : Planes
  attractor_radius : WithTop ℝ

/-- `BaseOrbitPlotter.__init__(num_points=150, *, plane=None)`. -/
def PlotterState.init (num_points : ℕ := 150) (plane : Option Planes := none) :
    PlotterState :=
  { num_points := num_points
    trajectories := []
    attractor := none
    plane := plane.getD Planes.EARTH_EQUATOR
    attractor_radius := ⊤ }

/-- `_set_attractor(attractor)`: first component is the state after the call,
second is `ok` or the raised error.  Python compares attractors with `is`;
the model uses structural equality of `Body`. -/
def setAttractor (s : PlotterState) (attractor : Body) :
    PlotterState × Except String Unit :=
  match s.attractor with
  | none => ({ s with attractor := some attractor }, Except.ok ())
  | some b =>
      if attractor = b then (s, Except.ok ())
      else (s, Except.error ("Attractor has already been set to " ++ b.name))

/-- The value of `coordinates.norm().min()` for one trajectory's
nonempty coordinate-sample list.  NumPy *raises* on an empty array; that
raise is modelled by `minDistance?` below, so the `0` returned here on the
empty list is never observed along any path of the model (it only makes the
function total). -/
noncomputable def coordMinNorm (coordinates : List Vec3) : ℝ :=
  match coordinates.map Vec3.norm with
  | [] => 0
  | x :: xs => xs.foldl min x

/-- The value of
`min([coordinates.norm().min() for coordinates, *_ in self._trajectories]
or [0 * u.m])` from `_redraw_attractor`, when no stored trajectory has an
empty coordinate list (the raising case is `minDistance?`). -/
noncomputable def minDistance (trajectories : List Trajectory) : ℝ :=
  match trajectories.map (fun t => coordMinNorm t.coordinates) with
  | [] => 0
  | x :: xs => xs.foldl min x

/-- The `min_distance` computation of `_redraw_attractor` with NumPy's
failure mode: the list comprehension evaluates `coordinates.norm().min()`
for every stored trajectory and raises `ValueError` ("zero-size array to
reduction operation") as soon as one coordinate sequence is empty (`none`
here); otherwise its value is `minDistance`. -/
noncomputable def minDistance? (trajectories : List Trajectory) : Option ℝ :=
  if trajectories.all (fun t => !t.coordinates.isEmpty) then
    some (minDistance trajectories)
  else none

/-- `_redraw_attractor`: computes `min_distance` (which can raise, see
`minDistance?`), then recomputes `self._attractor_radius` as
`max(self._attractor.R.to(u.km), min_distance.to(u.km) * 0.15)`.
The subsequent `_clear_attractor` / `_draw_sphere` calls are backend hooks
with no modelled state.  Reading `self._attractor.R` requires the attractor
to be set; the `none`-attractor branch is unreachable from the public
operations, which only reach `__add_trajectory` with an attractor bound. -/
noncomputable def redrawAttractor (s : PlotterState) :
    PlotterState × Except String Unit :=
  match minDistance? s.trajectories with
  | none =>
      (s, Except.error
        ("zero-size array to reduction operation minimum which has " ++
          "no identity"))
  | some md =>
      match s.attractor with
      | none => (s, Except.ok ())
      | some a =>
          ({ s with
             attractor_radius :=
               ((max ((a.R : ℚ) : ℝ) (md * 0.15) : ℝ) : WithTop ℝ) },
            Except.ok ())

/-- `__add_trajectory`: appends the new `Trajectory` to
`self._trajectories`, then calls `_redraw_attractor` — which can raise
*after* the append, in which case the returned state already holds the new
trajectory (the drawing of the new trajectory afterwards is a backend
hook). -/
noncomputable def addTrajectory (s : PlotterState) (coordinates : List Vec3)
    (position : Option Vec3) (label : String) (colors : List String)
    (dashed : Bool) : PlotterState × Except String Unit :=
  redrawAttractor
    { s with
      trajectories :=
        s.trajectories ++
          [{ coordinates := coordinates, position := position, label := label
             colors := colors, dashed := dashed }] }

/-- Python's `str` applied to an optional string label: `str(None)` is the
literal string `"None"`. -/
def pyStr : Option String → String
  | none => "None"
  | some l => l

/-- Python's `label or fallback` for an optional string: `None` and the empty
string are falsy. -/
def pyOr : Option String → String → String
  | none, fallback => fallback
  | some l, fallback => if l = "" then fallback else l

/-- Modelled from the spec: `generate_label(epoch, label)` from
`poliastro.plotting.util` is repository code that is not under `src/`; per
the spec it "derives a human-readable label from an epoch and an optional
user-supplied label". -/
def generate_label (epoch : ℚ) (label : Option String) : String :=
  match label with
  | some l => l ++ " (" ++ toString epoch ++ ")"
  | none => toString epoch

/-- The view of an orbit after `change_plane`: the attributes `_plot` reads
from it (`epoch`, `r`, `sample(n)`). -/
structure OrbitData where
  epoch : ℚ
  r : Vec3
  sample : ℕ → List Vec3

/-- The orbit abstraction consumed by `_plot`: an attractor, and for every
plane the plane-changed view `change_plane(plane)`. -/
structure Orbit where
  attractor : Body
  change_plane : Planes → OrbitData

/-- The solar-system body abstraction consumed by `_plot_body_orbit`.
`mean_period` models `get_mean_elements(body, epoch).period` and `ephem`
models `Ephem.from_body(body, epochs, attractor=..., plane=...).sample()`
pointwise; both are repository code outside `src/`, modelled from the spec
("mean-element/period estimator, ephemeris sampler producing Cartesian
coordinates over a time range").  `str_body` models `str(body)`. -/
structure SolarBody where
  name : String
  parent : Body
  mean_period : ℚ → ℚ
  ephem : Body → Planes → ℚ → Vec3

/-- Modelled from the spec: `time_range(start, periods=n, end=e)` from
`poliastro.util` is repository code that is not under `src/`; per the spec it
"builds an evenly spaced time range" of `periods` epochs from `start` to
`end` inclusive. -/
def time_range (start : ℚ) (periods : ℕ) (endEpoch : ℚ) : List ℚ :=
  (List.range periods).map
    (fun (i : ℕ) => start + (endEpoch - start) * (i : ℚ) / ((periods : ℚ) - 1))

/-- `_plot_trajectory(coordinates, *, label=None, color=None, trail=False)`.
The attractor check precedes the append, but `__add_trajectory` itself can
still raise after appending (empty coordinate sequence); `colors` stands for
the backend's `_get_colors(color, trail)` result;
`represent_as(CartesianRepresentation)` is the identity on the
already-Cartesian `Vec3` samples. -/
noncomputable def plotTrajectoryCall (s : PlotterState) (coordinates : List Vec3)
    (label : Option String) (colors : List String) :
    PlotterState × Except String Unit :=
  match s.attractor with
  | none =>
      (s, Except.error ("An attractor must be set up first, please use " ++
        "set_attractor(Major_Body) or plot(orbit)"))
  | some _ =>
      addTrajectory s coordinates none (pyStr label) colors false

/-- `_plot(orbit, *, label=None, color=None, trail=False)`: sets/validates
the attractor from the orbit, changes the orbit to the plotter's plane,
samples `num_points` points and appends a dashed trajectory whose position
is `orbit.r`. -/
noncomputable def plotOrbitCall (s : PlotterState) (orbit : Orbit)
    (label : Option String) (colors : List String) :
    PlotterState × Except String Unit :=
  match setAttractor s orbit.attractor with
  | (s₁, Except.error e) => (s₁, Except.error e)
  | (s₁, Except.ok _) =>
      let od := orbit.change_plane s₁.plane
      addTrajectory s₁ (od.sample s₁.num_points) (some od.r)
        (generate_label od.epoch label) colors true

/-- `_plot_body_orbit(body, epoch, *, label=None, color=None, trail=False)`:
sets the attractor to `body.parent`, estimates the period, builds the epoch
range `time_range(epoch, periods=num_points, end=epoch + period)`, samples
the ephemeris over it, and appends a non-dashed trajectory whose position is
`coordinates[0]` (here the model of `str(body)` is `body.name`). -/
noncomputable def plotBodyOrbitCall (s : PlotterState) (body : SolarBody)
    (epoch : ℚ) (label : Option String) (colors : List String) :
    PlotterState × Except String Unit :=
  match setAttractor s body.parent with
  | (s₁, Except.error e) => (s₁, Except.error e)
  | (s₁, Except.ok _) =>
      let period := body.mean_period epoch
      let lbl := generate_label epoch (some (pyOr label body.name))
      let epochs := time_range epoch s₁.num_points (epoch + period)
      let coordinates := epochs.map (body.ephem body.parent s₁.plane)
      addTrajectory s₁ coordinates (some (coordinates.headD ⟨0, 0, 0⟩))
        lbl colors false

/-- `_plot_position(position, label, colors)`: the radius handed to the
backend's `_draw_point`, namely
`min(self._attractor_radius * 0.5, (norm(position) - self._attractor.R) * 0.5)`.
`attractor_radius` is the (finite, post-insertion) value of
`self._attractor_radius` and `a` the attractor. -/
noncomputable def plotPositionRadius (attractor_radius : ℝ) (a : Body)
    (position : Vec3) : ℝ :=
  min (attractor_radius * 0.5) ((Vec3.norm position - ((a.R : ℚ) : ℝ)) * 0.5)

/-- One public `plot*` call of `BaseOrbitPlotter`, with the backend-supplied
colour set attached. -/
inductive PlotCall where
  | trajectory (coordinates : List Vec3) (label : Option String)
      (colors : List String)
  | orbit (o : Orbit) (label : Option String) (colors : List String)
  | bodyOrbit (b : SolarBody) (epoch : ℚ) (label : Option String)
      (colors : List String)

/-- Dispatch one `plot*` call. -/
noncomputable def runCall (s : PlotterState) : PlotCall →
    PlotterState × Except String Unit
  | PlotCall.trajectory cs lbl colors => plotTrajectoryCall s cs lbl colors
  | PlotCall.orbit o lbl colors => plotOrbitCall s o lbl colors
  | PlotCall.bodyOrbit b e lbl colors => plotBodyOrbitCall s b e lbl colors

/-- Run a sequence of `plot*` calls, stopping at the first raised error. -/
noncomputable def runCalls (s : PlotterState) :
    List PlotCall → PlotterState × Except String Unit
  | [] => (s, Except.ok ())
  | c :: cs =>
      match runCall s c with
      | (s₁, Except.ok _) => runCalls s₁ cs
      | (s₁, Except.error e) => (s₁, Except.error e)

/-- The trajectory a successful `plot*` call appends, as a function of the
plotter's (immutable) `num_points` and `plane` and of the call alone. -/
def callTraj (num_points : ℕ) (plane : Planes) : PlotCall → Trajectory
  | PlotCall.trajectory cs lbl colors =>
      { coordinates := cs, position := none, label := pyStr lbl
        colors := colors, dashed := false }
  | PlotCall.orbit o lbl colors =>
      let od := o.change_plane plane
      { coordinates := od.sample num_points, position := some od.r
        label := generate_label od.epoch lbl, colors := colors, dashed := true }
  | PlotCall.bodyOrbit b e lbl colors =>
      let epochs := time_range e num_points (e + b.mean_period e)
      let coordinates := epochs.map (b.ephem b.parent plane)
      { coordinates := coordinates
        position := some (coordinates.headD ⟨0, 0, 0⟩)
        label := generate_label e (some (pyOr lbl b.name))
        colors := colors, dashed := false }

/-- State of a plotter carrying the `Mixin2D` capability: the projection
frame (unset until the first successful `_set_frame`) and the trajectory
list the mixin declares. -/
structure Mixin2DState where
  frame : Option (Vec3 × Vec3 × Vec3)
  trajectories : List Trajectory

/-- `_set_frame(p_vec, q_vec, w_vec)` of `Mixin2D`.  The source checks
`np.allclose([norm(v) for v in (p, q, w)], 1)` and
`np.allclose([p.dot(q), q.dot(w), w.dot(p)], 0)`; the model uses exact
rational arithmetic (for the nonnegative `normSq`, `norm v = 1` is
equivalent to `normSq v = 1`).  On success the frame is stored and, if
trajectories exist, `_redraw()` (a backend hook, no modelled state) replays
them; on failure the state is returned untouched. -/
def setFrame (s : Mixin2DState) (p_vec q_vec w_vec : Vec3) :
    Mixin2DState × Except String Unit :=
  if ¬(p_vec.normSq = 1 ∧ q_vec.normSq = 1 ∧ w_vec.normSq = 1) then
    (s, Except.error ("Vectors must be unit."))
  else if ¬(p_vec.dot q_vec = 0 ∧ q_vec.dot w_vec = 0 ∧ w_vec.dot p_vec = 0) then
    (s, Except.error ("Vectors must be mutually orthogonal."))
  else
    ({ s with frame := some (p_vec, q_vec, w_vec) }, Except.ok ())

/-- `_project(rr)` of `Mixin2D`:
`rr_proj = rr - rr.dot(w)[:, None] * w; x = rr_proj.dot(p); y = rr_proj.dot(q)`,
over the stored frame `(p, q, w)`. -/
def project (frame : Vec3 × Vec3 × Vec3) (rr : List Vec3) :
    List ℚ × List ℚ :=
  let rr_proj := rr.map (fun r => r - (r.dot frame.2.2) • frame.2.2)
  (rr_proj.map (fun r => r.dot frame.1), rr_proj.map (fun r => r.dot frame.2.1))

/-! ### Helper lemmas -/

theorem Vec3.norm_axis (d : ℚ) (h : 0 ≤ d) : Vec3.norm ⟨d, 0, 0⟩ = (d : ℝ) := by
  have : ((d * d + 0 * 0 + 0 * 0 : ℚ) : ℝ) = (d : ℝ) * (d : ℝ) := by
    push_cast
    ring
  rw [Vec3.norm, Vec3.normSq, Vec3.dot]
  rw [this]
  exact Real.sqrt_mul_self (by exact_mod_cast h)

theorem minDistance_singleton (t : Trajectory) :
    minDistance [t] = coordMinNorm t.coordinates := by
  simp [minDistance]

theorem coordMinNorm_singleton (v : Vec3) : coordMinNorm [v] = Vec3.norm v := by
  simp [coordMinNorm]

theorem minDistance_append_singleton (ts : List Trajectory) (t : Trajectory)
    (h : ts ≠ []) :
    minDistance (ts ++ [t]) = min (minDistance ts) (coordMinNorm t.coordinates) := by
  rcases ts with _ | ⟨t₀, ts'⟩
  · exact absurd rfl h
  · simp [minDistance, List.foldl_append]

theorem minDistance?_some_val (ts : List Trajectory) (md : ℝ)
    (h : minDistance? ts = some md) : md = minDistance ts := by
  unfold minDistance? at h
  split_ifs at h with hall
  exact (Option.some.inj h).symm

theorem redrawAttractor_ok (s : PlotterState)
    (h : (redrawAttractor s).2 = Except.ok ()) :
    ∃ md, minDistance? s.trajectories = some md := by
  rcases hm : minDistance? s.trajectories with _ | md
  · exfalso
    simp [redrawAttractor, hm] at h
  · exact ⟨md, rfl⟩

theorem redrawAttractor_radius (s : PlotterState) (a : Body) (md : ℝ)
    (ha : s.attractor = some a) (hmd : minDistance? s.trajectories = some md) :
    redrawAttractor s =
      ({ s with
         attractor_radius :=
           ((max ((a.R : ℚ) : ℝ) (md * 0.15) : ℝ) : WithTop ℝ) },
        Except.ok ()) := by
  simp [redrawAttractor, hmd, ha]

theorem redrawAttractor_fields (s : PlotterState) :
    (redrawAttractor s).1.trajectories = s.trajectories ∧
    (redrawAttractor s).1.attractor = s.attractor ∧
    (redrawAttractor s).1.num_points = s.num_points ∧
    (redrawAttractor s).1.plane = s.plane := by
  unfold redrawAttractor
  rcases hm : minDistance? s.trajectories with _ | md
  · simp [hm]
  · rcases ha : s.attractor with _ | a <;> simp [hm, ha]

theorem addTrajectory_trajectories (s : PlotterState) (cs : List Vec3)
    (pos : Option Vec3) (lbl : String) (colors : List String) (dashed : Bool) :
    (addTrajectory s cs pos lbl colors dashed).1.trajectories =
      s.trajectories ++
        [{ coordinates := cs, position := pos, label := lbl, colors := colors
           dashed := dashed }] :=
  (redrawAttractor_fields
    { s with
      trajectories := s.trajectories ++
        [{ coordinates := cs, position := pos, label := lbl, colors := colors
           dashed := dashed }] }).1

theorem addTrajectory_attractor (s : PlotterState) (cs : List Vec3)
    (pos : Option Vec3) (lbl : String) (colors : List String) (dashed : Bool) :
    (addTrajectory s cs pos lbl colors dashed).1.attractor = s.attractor :=
  (redrawAttractor_fields
    { s with
      trajectories := s.trajectories ++
        [{ coordinates := cs, position := pos, label := lbl, colors := colors
           dashed := dashed }] }).2.1

theorem addTrajectory_num_points (s : PlotterState) (cs : List Vec3)
    (pos : Option Vec3) (lbl : String) (colors : List String) (dashed : Bool) :
    (addTrajectory s cs pos lbl colors dashed).1.num_points = s.num_points :=
  (redrawAttractor_fields
    { s with
      trajectories := s.trajectories ++
        [{ coordinates := cs, position := pos, label := lbl, colors := colors
           dashed := dashed }] }).2.2.1

theorem addTrajectory_plane (s : PlotterState) (cs : List Vec3)
    (pos : Option Vec3) (lbl : String) (colors : List String) (dashed : Bool) :
    (addTrajectory s cs pos lbl colors dashed).1.plane = s.plane :=
  (redrawAttractor_fields
    { s with
      trajectories := s.trajectories ++
        [{ coordinates := cs, position := pos, label := lbl, colors := colors
           dashed := dashed }] }).2.2.2

theorem addTrajectory_radius (s : PlotterState) (a : Body)
    (ha : s.attractor = some a) (cs : List Vec3) (pos : Option Vec3)
    (lbl : String) (colors : List String) (dashed : Bool)
    (hok : (addTrajectory s cs pos lbl colors dashed).2 = Except.ok ()) :
    (addTrajectory s cs pos lbl colors dashed).1.attractor_radius =
      ((max ((a.R : ℚ) : ℝ)
        (minDistance (s.trajectories ++
          [{ coordinates := cs, position := pos, label := lbl, colors := colors
             dashed := dashed }]) * 0.15) : ℝ) : WithTop ℝ) := by
  obtain ⟨md, hmd⟩ := redrawAttractor_ok
    { s with
      trajectories := s.trajectories ++
        [{ coordinates := cs, position := pos, label := lbl, colors := colors
           dashed := dashed }] } hok
  have hmdv := minDistance?_some_val _ md hmd
  have hred := redrawAttractor_radius
    { s with
      trajectories := s.trajectories ++
        [{ coordinates := cs, position := pos, label := lbl, colors := colors
           dashed := dashed }] } a md ha hmd
  calc (addTrajectory s cs pos lbl colors dashed).1.attractor_radius
      = (redrawAttractor
          { s with
            trajectories := s.trajectories ++
              [{ coordinates := cs, position := pos, label := lbl
                 colors := colors, dashed := dashed }] }).1.attractor_radius :=
        rfl
    _ = ((max ((a.R : ℚ) : ℝ) (md * 0.15) : ℝ) : WithTop ℝ) := by rw [hred]
    _ = _ := by rw [hmdv]

theorem addTrajectory_radius_self (s : PlotterState) (a : Body)
    (ha : s.attractor = some a) (cs : List Vec3) (pos : Option Vec3)
    (lbl : String) (colors : List String) (dashed : Bool)
    (hok : (addTrajectory s cs pos lbl colors dashed).2 = Except.ok ()) :
    (addTrajectory s cs pos lbl colors dashed).1.attractor_radius =
      ((max ((a.R : ℚ) : ℝ)
        (minDistance (addTrajectory s cs pos lbl colors dashed).1.trajectories
          * 0.15) : ℝ) : WithTop ℝ) := by
  rw [addTrajectory_trajectories s cs pos lbl colors dashed]
  exact addTrajectory_radius s a ha cs pos lbl colors dashed hok

theorem runCall_ok (s : PlotterState) (c : PlotCall)
    (hok : (runCall s c).2 = Except.ok ()) :
    (runCall s c).1.trajectories =
        s.trajectories ++ [callTraj s.num_points s.plane c] ∧
      (runCall s c).1.num_points = s.num_points ∧
      (runCall s c).1.plane = s.plane ∧
      ∃ a, (runCall s c).1.attractor = some a ∧
        (∀ b, s.attractor = some b → a = b) := by
  cases c with
  | trajectory cs lbl colors =>
      rcases ha : s.attractor with _ | a
      · simp [runCall, plotTrajectoryCall, ha] at hok
      · refine ⟨?_, ?_, ?_, a, ?_, ?_⟩ <;>
          simp [runCall, plotTrajectoryCall, ha, callTraj,
            addTrajectory_trajectories, addTrajectory_num_points,
            addTrajectory_plane, addTrajectory_attractor]
  | orbit o lbl colors =>
      rcases ha : s.attractor with _ | b
      · refine ⟨?_, ?_, ?_, o.attractor, ?_, ?_⟩ <;>
          simp [runCall, plotOrbitCall, setAttractor, ha, callTraj,
            addTrajectory_trajectories, addTrajectory_num_points,
            addTrajectory_plane, addTrajectory_attractor]
      · by_cases hb : o.attractor = b
        · refine ⟨?_, ?_, ?_, b, ?_, ?_⟩ <;>
            simp [runCall, plotOrbitCall, setAttractor, ha, hb, callTraj,
              addTrajectory_trajectories, addTrajectory_num_points,
              addTrajectory_plane, addTrajectory_attractor]
        · simp [runCall, plotOrbitCall, setAttractor, ha, hb] at hok
  | bodyOrbit bd e lbl colors =>
      rcases ha : s.attractor with _ | b
      · refine ⟨?_, ?_, ?_, bd.parent, ?_, ?_⟩ <;>
          simp [runCall, plotBodyOrbitCall, setAttractor, ha, callTraj,
            addTrajectory_trajectories, addTrajectory_num_points,
            addTrajectory_plane, addTrajectory_attractor]
      · by_cases hb : bd.parent = b
        · refine ⟨?_, ?_, ?_, b, ?_, ?_⟩ <;>
            simp [runCall, plotBodyOrbitCall, setAttractor, ha, hb, callTraj,
              addTrajectory_trajectories, addTrajectory_num_points,
              addTrajectory_plane, addTrajectory_attractor]
        · simp [runCall, plotBodyOrbitCall, setAttractor, ha, hb] at hok

theorem runCall_ok_radius (s : PlotterState) (c : PlotCall)
    (hok : (runCall s c).2 = Except.ok ()) :
    ∃ a, (runCall s c).1.attractor = some a ∧
      (runCall s c).1.attractor_radius =
        ((max ((a.R : ℚ) : ℝ)
          (minDistance (runCall s c).1.trajectories * 0.15) : ℝ) : WithTop ℝ) := by
  cases c with
  | trajectory cs lbl colors =>
      rcases ha : s.attractor with _ | a₀
      · simp [runCall, plotTrajectoryCall, ha] at hok
      · refine ⟨a₀, ?_, ?_⟩
        · simp [runCall, plotTrajectoryCall, ha, addTrajectory_attractor]
        · simp only [runCall, plotTrajectoryCall, ha] at hok ⊢
          exact addTrajectory_radius_self s a₀ ha _ _ _ _ _ hok
  | orbit o lbl colors =>
      rcases ha : s.attractor with _ | b
      · refine ⟨o.attractor, ?_, ?_⟩
        · simp [runCall, plotOrbitCall, setAttractor, ha, addTrajectory_attractor]
        · simp only [runCall, plotOrbitCall, setAttractor, ha] at hok ⊢
          exact addTrajectory_radius_self _ o.attractor rfl _ _ _ _ _ hok
      · by_cases hb : o.attractor = b
        · refine ⟨b, ?_, ?_⟩
          · simp [runCall, plotOrbitCall, setAttractor, ha, hb,
              addTrajectory_attractor]
          · simp only [runCall, plotOrbitCall, setAttractor, ha, hb,
              if_true] at hok ⊢
            exact addTrajectory_radius_self s b ha _ _ _ _ _ hok
        · simp [runCall, plotOrbitCall, setAttractor, ha, hb] at hok
  | bodyOrbit bd e lbl colors =>
      rcases ha : s.attractor with _ | b
      · refine ⟨bd.parent, ?_, ?_⟩
        · simp [runCall, plotBodyOrbitCall, setAttractor, ha,
            addTrajectory_attractor]
        · simp only [runCall, plotBodyOrbitCall, setAttractor, ha] at hok ⊢
          exact addTrajectory_radius_self _ bd.parent rfl _ _ _ _ _ hok
      · by_cases hb : bd.parent = b
        · refine ⟨b, ?_, ?_⟩
          · simp [runCall, plotBodyOrbitCall, setAttractor, ha, hb,
              addTrajectory_attractor]
          · simp only [runCall, plotBodyOrbitCall, setAttractor, ha, hb,
              if_true] at hok ⊢
            exact addTrajectory_radius_self s b ha _ _ _ _ _ hok
        · simp [runCall, plotBodyOrbitCall, setAttractor, ha, hb] at hok

/-! ### Claims -/

/-- **C1.** After every trajectory insertion (every successful `plot*` call),
the plotter's attractor radius equals
`max(attractor physical radius, 0.15 × minimum over all stored trajectories
of the minimum distance-from-origin of their coordinate samples)`; the
minimum distance is `0` when no trajectories are stored (`minDistance []`
is `0`, mirroring the `or [0 * u.m]` default). -/
theorem C1_attractor_radius_recompute (s : PlotterState) (c : PlotCall)
    (a : Body) (hok : (runCall s c).2 = Except.ok ())
    (ha : (runCall s c).1.attractor = some a) :
    (runCall s c).1.attractor_radius =
      ((max ((a.R : ℚ) : ℝ)
        (0.15 * minDistance (runCall s c).1.trajectories) : ℝ) : WithTop ℝ) := by
  obtain ⟨a', ha', hr⟩ := runCall_ok_radius s c hok
  rw [ha'] at ha
  injection ha with h
  subst h
  rw [hr, mul_comm (minDistance ((runCall s c).1.trajectories)) 0.15]

/-- Witness for C1: the spec's scenario — physical radius 6371 km, one
trajectory with minimum distance 50000 km — yields attractor radius
`max(6371, 0.15 × 50000) = 7500` km. -/
theorem C1_witness :
    (runCall
      { num_points := 150, trajectories := [],
        attractor := some { name := "Earth", R := 6371 },
        plane := Planes.EARTH_EQUATOR, attractor_radius := ⊤ }
      (PlotCall.trajectory [⟨50000, 0, 0⟩] none [])).2 = Except.ok () ∧
    (runCall
      { num_points := 150, trajectories := [],
        attractor := some { name := "Earth", R := 6371 },
        plane := Planes.EARTH_EQUATOR, attractor_radius := ⊤ }
      (PlotCall.trajectory [⟨50000, 0, 0⟩] none [])).1.attractor =
        some { name := "Earth", R := 6371 } ∧
    (runCall
      { num_points := 150, trajectories := [],
        attractor := some { name := "Earth", R := 6371 },
        plane := Planes.EARTH_EQUATOR, attractor_radius := ⊤ }
      (PlotCall.trajectory [⟨50000, 0, 0⟩] none [])).1.attractor_radius =
        ((7500 : ℝ) : WithTop ℝ) := by
  refine ⟨rfl, rfl, ?_⟩
  rw [C1_attractor_radius_recompute
    { num_points := 150, trajectories := [],
      attractor := some { name := "Earth", R := 6371 },
      plane := Planes.EARTH_EQUATOR, attractor_radius := ⊤ }
    (PlotCall.trajectory [⟨50000, 0, 0⟩] none [])
    { name := "Earth", R := 6371 } rfl rfl]
  rw [show (runCall
      { num_points := 150, trajectories := [],
        attractor := some { name := "Earth", R := 6371 },
        plane := Planes.EARTH_EQUATOR, attractor_radius := ⊤ }
      (PlotCall.trajectory [⟨50000, 0, 0⟩] none [])).1.trajectories =
      [{ coordinates := [⟨50000, 0, 0⟩], position := none, label := pyStr none
         colors := [], dashed := false }] from rfl]
  rw [minDistance_singleton]
  norm_num [coordMinNorm_singleton, Vec3.norm_axis 50000 (by norm_num)]

/-- Radius bookkeeping invariant of reachable plotter states: before the
first insertion the radius is the initial `np.inf`, and after an insertion it
is the value `_redraw_attractor` last computed for the stored trajectories. -/
def RadiusInv (s : PlotterState) : Prop :=
  (s.trajectories = [] ∧ s.attractor_radius = ⊤) ∨
  (∃ a, s.attractor = some a ∧ s.trajectories ≠ [] ∧
    s.attractor_radius =
      ((max ((a.R : ℚ) : ℝ) (minDistance s.trajectories * 0.15) : ℝ) :
        WithTop ℝ))

/-- Counterexample to **C2** as stated: with physical radius 1 km, inserting
a trajectory at distance 100 km gives radius 15 km, and then inserting a
trajectory at distance 10 km gives radius 1.5 km — the radius strictly
decreases across a successful insertion, so it is not monotonically
non-decreasing. -/
theorem C2_counterexample :
    (runCall
      { num_points := 150, trajectories := [],
        attractor := some { name := "B", R := 1 },
        plane := Planes.EARTH_EQUATOR, attractor_radius := ⊤ }
      (PlotCall.trajectory [⟨100, 0, 0⟩] none [])).2 = Except.ok () ∧
    (runCall
      (runCall
        { num_points := 150, trajectories := [],
          attractor := some { name := "B", R := 1 },
          plane := Planes.EARTH_EQUATOR, attractor_radius := ⊤ }
        (PlotCall.trajectory [⟨100, 0, 0⟩] none [])).1
      (PlotCall.trajectory [⟨10, 0, 0⟩] none [])).2 = Except.ok () ∧
    (runCall
      (runCall
        { num_points := 150, trajectories := [],
          attractor := some { name := "B", R := 1 },
          plane := Planes.EARTH_EQUATOR, attractor_radius := ⊤ }
        (PlotCall.trajectory [⟨100, 0, 0⟩] none [])).1
      (PlotCall.trajectory [⟨10, 0, 0⟩] none [])).1.attractor_radius <
    (runCall
      { num_points := 150, trajectories := [],
        attractor := some { name := "B", R := 1 },
        plane := Planes.EARTH_EQUATOR, attractor_radius := ⊤ }
      (PlotCall.trajectory [⟨100, 0, 0⟩] none [])).1.attractor_radius := by
  refine ⟨rfl, rfl, ?_⟩
  have h₁ : (runCall
      { num_points := 150, trajectories := [],
        attractor := some { name := "B", R := 1 },
        plane := Planes.EARTH_EQUATOR, attractor_radius := ⊤ }
      (PlotCall.trajectory [⟨100, 0, 0⟩] none [])).1.attractor_radius =
      ((15 : ℝ) : WithTop ℝ) := by
    rw [show (runCall
        { num_points := 150, trajectories := [],
          attractor := some { name := "B", R := 1 },
          plane := Planes.EARTH_EQUATOR, attractor_radius := ⊤ }
        (PlotCall.trajectory [⟨100, 0, 0⟩] none [])).1 =
      (addTrajectory
        { num_points := 150, trajectories := [],
          attractor := some { name := "B", R := 1 },
          plane := Planes.EARTH_EQUATOR, attractor_radius := ⊤ }
        [⟨100, 0, 0⟩] none (pyStr none) [] false).1 from rfl]
    rw [addTrajectory_radius
      { num_points := 150, trajectories := [],
        attractor := some { name := "B", R := 1 },
        plane := Planes.EARTH_EQUATOR, attractor_radius := ⊤ }
      { name := "B", R := 1 } rfl [⟨100, 0, 0⟩] none (pyStr none) [] false rfl]
    norm_num [minDistance, coordMinNorm, Vec3.norm_axis 100 (by norm_num)]
  have h₂ : (runCall
      (runCall
        { num_points := 150, trajectories := [],
          attractor := some { name := "B", R := 1 },
          plane := Planes.EARTH_EQUATOR, attractor_radius := ⊤ }
        (PlotCall.trajectory [⟨100, 0, 0⟩] none [])).1
      (PlotCall.trajectory [⟨10, 0, 0⟩] none [])).1.attractor_radius =
      ((1.5 : ℝ) : WithTop ℝ) := by
    rw [show (runCall
        (runCall
          { num_points := 150, trajectories := [],
            attractor := some { name := "B", R := 1 },
            plane := Planes.EARTH_EQUATOR, attractor_radius := ⊤ }
          (PlotCall.trajectory [⟨100, 0, 0⟩] none [])).1
        (PlotCall.trajectory [⟨10, 0, 0⟩] none [])).1 =
      (addTrajectory
        (runCall
          { num_points := 150, trajectories := [],
            attractor := some { name := "B", R := 1 },
            plane := Planes.EARTH_EQUATOR, attractor_radius := ⊤ }
          (PlotCall.trajectory [⟨100, 0, 0⟩] none [])).1
        [⟨10, 0, 0⟩] none (pyStr none) [] false).1 from rfl]
    rw [addTrajectory_radius
      (runCall
        { num_points := 150, trajectories := [],
          attractor := some { name := "B", R := 1 },
          plane := Planes.EARTH_EQUATOR, attractor_radius := ⊤ }
        (PlotCall.trajectory [⟨100, 0, 0⟩] none [])).1
      { name := "B", R := 1 } rfl [⟨10, 0, 0⟩] none (pyStr none) [] false rfl]
    have htr : (runCall
        { num_points := 150, trajectories := [],
          attractor := some { name := "B", R := 1 },
          plane := Planes.EARTH_EQUATOR, attractor_radius := ⊤ }
        (PlotCall.trajectory [⟨100, 0, 0⟩] none [])).1.trajectories =
        [{ coordinates := [⟨100, 0, 0⟩], position := none, label := pyStr none
           colors := [], dashed := false }] := rfl
    rw [htr]
    norm_num [minDistance, coordMinNorm, Vec3.norm_axis 100 (by norm_num),
      Vec3.norm_axis 10 (by norm_num)]
  rw [h₁, h₂]
  exact WithTop.coe_lt_coe.mpr (by norm_num)

/-- **C2 (amended).** For every plotter state satisfying the reachable-state
radius invariant, the attractor radius is monotonically *non-increasing*
across successive successful trajectory insertions (radius after adding a
trajectory ≤ radius before), and after every insertion the radius is ≥ the
attractor's physical radius. -/
theorem C2_attractor_radius_monotone (s : PlotterState) (c : PlotCall)
    (hinv : RadiusInv s) (hok : (runCall s c).2 = Except.ok ()) :
    (runCall s c).1.attractor_radius ≤ s.attractor_radius ∧
    ∀ a, (runCall s c).1.attractor = some a →
      ((((a.R : ℚ) : ℝ) : WithTop ℝ)) ≤ (runCall s c).1.attractor_radius := by
  obtain ⟨a, ha, hr⟩ := runCall_ok_radius s c hok
  obtain ⟨htraj, -, -, a₁, ha₁, hsame⟩ := runCall_ok s c hok
  constructor
  · rcases hinv with ⟨-, hrad⟩ | ⟨b, hb, hne, hrad⟩
    · rw [hrad]
      exact le_top
    · have hab : a = b := by
        rw [ha₁] at ha
        injection ha with h
        exact h ▸ hsame b hb
      rw [hr, hrad, htraj, hab]
      refine WithTop.coe_le_coe.mpr (max_le_max (le_refl _) ?_)
      refine mul_le_mul_of_nonneg_right ?_ (by norm_num)
      rw [minDistance_append_singleton _ _ hne]
      exact min_le_left _ _
  · intro a' ha'
    rw [ha'] at ha
    injection ha with h
    subst h
    rw [hr]
    exact WithTop.coe_le_coe.mpr (le_max_left _ _)

/-- Witness for C2 (amended): a concrete first insertion on a fresh plotter
with attractor of physical radius 1 km. -/
theorem C2_witness :
    RadiusInv
      { num_points := 150, trajectories := [],
        attractor := some { name := "B", R := 1 },
        plane := Planes.EARTH_EQUATOR, attractor_radius := ⊤ } ∧
    (runCall
      { num_points := 150, trajectories := [],
        attractor := some { name := "B", R := 1 },
        plane := Planes.EARTH_EQUATOR, attractor_radius := ⊤ }
      (PlotCall.trajectory [⟨100, 0, 0⟩] none [])).2 = Except.ok () ∧
    ((runCall
      { num_points := 150, trajectories := [],
        attractor := some { name := "B", R := 1 },
        plane := Planes.EARTH_EQUATOR, attractor_radius := ⊤ }
      (PlotCall.trajectory [⟨100, 0, 0⟩] none [])).1.attractor_radius ≤
      (⊤ : WithTop ℝ) ∧
    ∀ a, (runCall
      { num_points := 150, trajectories := [],
        attractor := some { name := "B", R := 1 },
        plane := Planes.EARTH_EQUATOR, attractor_radius := ⊤ }
      (PlotCall.trajectory [⟨100, 0, 0⟩] none [])).1.attractor = some a →
      ((((a.R : ℚ) : ℝ) : WithTop ℝ)) ≤ (runCall
        { num_points := 150, trajectories := [],
          attractor := some { name := "B", R := 1 },
          plane := Planes.EARTH_EQUATOR, attractor_radius := ⊤ }
        (PlotCall.trajectory [⟨100, 0, 0⟩] none [])).1.attractor_radius) :=
  ⟨Or.inl ⟨rfl, rfl⟩, rfl,
    C2_attractor_radius_monotone _ _ (Or.inl ⟨rfl, rfl⟩) rfl⟩

theorem runCall_error_spec (s : PlotterState) (c : PlotCall) (e : String)
    (h : (runCall s c).2 = Except.error e) :
    (runCall s c).1 = s ∨
      (runCall s c).1.trajectories =
        s.trajectories ++ [callTraj s.num_points s.plane c] := by
  cases c with
  | trajectory cs lbl colors =>
      rcases ha : s.attractor with _ | a
      · left
        simp [runCall, plotTrajectoryCall, ha]
      · right
        simp only [runCall, plotTrajectoryCall, ha]
        rw [addTrajectory_trajectories]
        simp [callTraj]
  | orbit o lbl colors =>
      rcases ha : s.attractor with _ | b
      · right
        simp only [runCall, plotOrbitCall, setAttractor, ha]
        rw [addTrajectory_trajectories]
        simp [callTraj]
      · by_cases hb : o.attractor = b
        · right
          simp only [runCall, plotOrbitCall, setAttractor, ha, hb, if_true]
          rw [addTrajectory_trajectories]
          simp [callTraj]
        · left
          simp [runCall, plotOrbitCall, setAttractor, ha, hb]
  | bodyOrbit bd ep lbl colors =>
      rcases ha : s.attractor with _ | b
      · right
        simp only [runCall, plotBodyOrbitCall, setAttractor, ha]
        rw [addTrajectory_trajectories]
        simp [callTraj]
      · by_cases hb : bd.parent = b
        · right
          simp only [runCall, plotBodyOrbitCall, setAttractor, ha, hb, if_true]
          rw [addTrajectory_trajectories]
          simp [callTraj, hb]
        · left
          simp [runCall, plotBodyOrbitCall, setAttractor, ha, hb]

/-- Counterexample to **C3** as stated: a `plot_trajectory` call with an
empty coordinate sequence, on a plotter with an attractor and an empty
trajectory list, passes the attractor validation, appends its trajectory
(source line 119) and only then raises `ValueError` from
`_redraw_attractor`'s minimum over the zero-size sample array (lines
67–70) — a failing `plot*` call after which the trajectory list has
changed, so not all validation occurs before the append. -/
theorem C3_counterexample :
    (∃ e, (plotTrajectoryCall
      { num_points := 150, trajectories := [],
        attractor := some { name := "Earth", R := 6371 },
        plane := Planes.EARTH_EQUATOR, attractor_radius := ⊤ }
      ([] : List Vec3) none []).2 = Except.error e) ∧
    (plotTrajectoryCall
      { num_points := 150, trajectories := [],
        attractor := some { name := "Earth", R := 6371 },
        plane := Planes.EARTH_EQUATOR, attractor_radius := ⊤ }
      ([] : List Vec3) none []).1.trajectories =
      [{ coordinates := [], position := none, label := pyStr none
         colors := [], dashed := false }] ∧
    (plotTrajectoryCall
      { num_points := 150, trajectories := [],
        attractor := some { name := "Earth", R := 6371 },
        plane := Planes.EARTH_EQUATOR, attractor_radius := ⊤ }
      ([] : List Vec3) none []).1.trajectories ≠ [] := by
  refine ⟨⟨_, rfl⟩, rfl, ?_⟩
  rw [show (plotTrajectoryCall
      { num_points := 150, trajectories := [],
        attractor := some { name := "Earth", R := 6371 },
        plane := Planes.EARTH_EQUATOR, attractor_radius := ⊤ }
      ([] : List Vec3) none []).1.trajectories =
      [{ coordinates := [], position := none, label := pyStr none
         colors := [], dashed := false }] from rfl]
  simp

/-- **C3 (amended).** Calling `plot_trajectory` on a plotter whose attractor
is unset fails with the explicit attractor error before any mutation,
leaving the state — in particular an empty trajectories list — unchanged.
Every failing `plot*` call either left the state completely unchanged
(validation failed before `__add_trajectory`: missing attractor or attractor
rebind) or had already appended exactly its one trajectory and then failed
inside `_redraw_attractor` (a trajectory with an empty coordinate
sequence); no other mutation is possible on failure. -/
theorem C3_validation_fail_no_mutation (s : PlotterState) :
    (s.attractor = none → ∀ cs lbl colors,
      plotTrajectoryCall s cs lbl colors =
        (s, Except.error ("An attractor must be set up first, please use " ++
          "set_attractor(Major_Body) or plot(orbit)"))) ∧
    (∀ c s' e, runCall s c = (s', Except.error e) →
      s' = s ∨ s'.trajectories =
        s.trajectories ++ [callTraj s.num_points s.plane c]) := by
  constructor
  · intro ha cs lbl colors
    simp [plotTrajectoryCall, ha]
  · intro c s' e h
    have h2 : (runCall s c).2 = Except.error e := by rw [h]
    have h1 : (runCall s c).1 = s' := by rw [h]
    rcases runCall_error_spec s c e h2 with hl | hr
    · left
      rw [← h1]
      exact hl
    · right
      rw [← h1]
      exact hr

/-- Witness for C3 (amended): a freshly initialised plotter has no
attractor, `plot_trajectory` on it raises the attractor error leaving its
empty trajectory list empty; and the dichotomy applied to the concrete
post-append failure (empty coordinates with an attractor set) holds. -/
theorem C3_witness :
    (PlotterState.init 150 none).attractor = none ∧
    plotTrajectoryCall (PlotterState.init 150 none) [⟨1, 0, 0⟩] none [] =
      (PlotterState.init 150 none,
        Except.error ("An attractor must be set up first, please use " ++
          "set_attractor(Major_Body) or plot(orbit)")) ∧
    (PlotterState.init 150 none).trajectories = [] ∧
    ((runCall
      { num_points := 150, trajectories := [],
        attractor := some { name := "Earth", R := 6371 },
        plane := Planes.EARTH_EQUATOR, attractor_radius := ⊤ }
      (PlotCall.trajectory ([] : List Vec3) none [])).1 =
        { num_points := 150, trajectories := [],
          attractor := some { name := "Earth", R := 6371 },
          plane := Planes.EARTH_EQUATOR, attractor_radius := ⊤ } ∨
      (runCall
        { num_points := 150, trajectories := [],
          attractor := some { name := "Earth", R := 6371 },
          plane := Planes.EARTH_EQUATOR, attractor_radius := ⊤ }
        (PlotCall.trajectory ([] : List Vec3) none [])).1.trajectories =
        [] ++ [callTraj 150 Planes.EARTH_EQUATOR
          (PlotCall.trajectory ([] : List Vec3) none [])]) :=
  ⟨rfl,
    (C3_validation_fail_no_mutation (PlotterState.init 150 none)).1 rfl
      [⟨1, 0, 0⟩] none [], rfl,
    (C3_validation_fail_no_mutation
      { num_points := 150, trajectories := [],
        attractor := some { name := "Earth", R := 6371 },
        plane := Planes.EARTH_EQUATOR, attractor_radius := ⊤ }).2
      (PlotCall.trajectory ([] : List Vec3) none []) _ _ rfl⟩

/-- **C4.** Once an attractor is set, `set_attractor` with a different
attractor always fails (raising the "already been set" error and changing
nothing), and `set_attractor` with the same attractor succeeds as a strict
no-op: the state — trajectory list included — is returned unchanged and no
error is raised. -/
theorem C4_set_attractor_rebind (s : PlotterState) (a b : Body)
    (hb : s.attractor = some b) :
    (a ≠ b → setAttractor s a =
      (s, Except.error ("Attractor has already been set to " ++ b.name))) ∧
    (a = b → setAttractor s a = (s, Except.ok ())) := by
  constructor <;> intro h <;> simp [setAttractor, hb, h]

/-- Witness for C4: after binding Earth, rebinding Mars fails with the
"already been set to Earth" error and leaves the state unchanged, while
rebinding Earth again is a no-op. -/
theorem C4_witness :
    (setAttractor (PlotterState.init 150 none)
      { name := "Earth", R := 6371 }).1.attractor =
        some { name := "Earth", R := 6371 } ∧
    setAttractor
      (setAttractor (PlotterState.init 150 none)
        { name := "Earth", R := 6371 }).1 { name := "Mars", R := 3390 } =
      ((setAttractor (PlotterState.init 150 none)
        { name := "Earth", R := 6371 }).1,
        Except.error ("Attractor has already been set to Earth")) ∧
    setAttractor
      (setAttractor (PlotterState.init 150 none)
        { name := "Earth", R := 6371 }).1 { name := "Earth", R := 6371 } =
      ((setAttractor (PlotterState.init 150 none)
        { name := "Earth", R := 6371 }).1, Except.ok ()) := by
  refine ⟨rfl, ?_, ?_⟩
  · exact (C4_set_attractor_rebind _ { name := "Mars", R := 3390 }
      { name := "Earth", R := 6371 } rfl).1 (by decide)
  · exact (C4_set_attractor_rebind _ { name := "Earth", R := 6371 }
      { name := "Earth", R := 6371 } rfl).2 rfl

/-- **C5.** Every successful `plot*` call appends exactly one `Trajectory`;
over any sequence of successful calls the trajectory list is the initial
list followed by the trajectories of the calls in call order, so its length
equals the call count, and no operation ever removes a trajectory. -/
theorem C5_trajectory_accumulation (s : PlotterState) (cs : List PlotCall)
    (hok : (runCalls s cs).2 = Except.ok ()) :
    (runCalls s cs).1.trajectories =
      s.trajectories ++ cs.map (callTraj s.num_points s.plane) ∧
    (runCalls s cs).1.trajectories.length =
      s.trajectories.length + cs.length := by
  have main : (runCalls s cs).1.trajectories =
      s.trajectories ++ cs.map (callTraj s.num_points s.plane) := by
    induction cs generalizing s with
    | nil => simp [runCalls]
    | cons c rest ih =>
        rcases hc : runCall s c with ⟨s₁, r⟩
        cases r with
        | error e => simp [runCalls, hc] at hok
        | ok u =>
            cases u
            obtain ⟨ht, hn, hp, -⟩ := runCall_ok s c (by rw [hc])
            have hs₁ : (runCall s c).1 = s₁ := by rw [hc]
            rw [hs₁] at ht hn hp
            have hok' : (runCalls s₁ rest).2 = Except.ok () := by
              simpa [runCalls, hc] using hok
            have ih' := ih s₁ hok'
            rw [show (runCalls s (c :: rest)).1 = (runCalls s₁ rest).1 by
              simp [runCalls, hc]]
            rw [ih', ht, hn, hp]
            simp
  exact ⟨main, by rw [main]; simp⟩

/-- Witness for C5: two successful `plot_trajectory` calls on a plotter with
an attractor leave exactly their two trajectories stored, in call order. -/
theorem C5_witness :
    (runCalls
      (setAttractor (PlotterState.init 150 none)
        { name := "Earth", R := 6371 }).1
      [PlotCall.trajectory [⟨100, 0, 0⟩] (some ("a")) [],
        PlotCall.trajectory [⟨10, 0, 0⟩] none []]).2 = Except.ok () ∧
    (runCalls
      (setAttractor (PlotterState.init 150 none)
        { name := "Earth", R := 6371 }).1
      [PlotCall.trajectory [⟨100, 0, 0⟩] (some ("a")) [],
        PlotCall.trajectory [⟨10, 0, 0⟩] none []]).1.trajectories =
      (setAttractor (PlotterState.init 150 none)
        { name := "Earth", R := 6371 }).1.trajectories ++
        [PlotCall.trajectory [⟨100, 0, 0⟩] (some ("a")) [],
          PlotCall.trajectory [⟨10, 0, 0⟩] none []].map
          (callTraj
            (setAttractor (PlotterState.init 150 none)
              { name := "Earth", R := 6371 }).1.num_points
            (setAttractor (PlotterState.init 150 none)
              { name := "Earth", R := 6371 }).1.plane) ∧
    (runCalls
      (setAttractor (PlotterState.init 150 none)
        { name := "Earth", R := 6371 }).1
      [PlotCall.trajectory [⟨100, 0, 0⟩] (some ("a")) [],
        PlotCall.trajectory [⟨10, 0, 0⟩] none []]).1.trajectories.length =
      (setAttractor (PlotterState.init 150 none)
        { name := "Earth", R := 6371 }).1.trajectories.length + 2 :=
  ⟨rfl,
    (C5_trajectory_accumulation
      (setAttractor (PlotterState.init 150 none)
        { name := "Earth", R := 6371 }).1
      [PlotCall.trajectory [⟨100, 0, 0⟩] (some ("a")) [],
        PlotCall.trajectory [⟨10, 0, 0⟩] none []] rfl).1,
    (C5_trajectory_accumulation
      (setAttractor (PlotterState.init 150 none)
        { name := "Earth", R := 6371 }).1
      [PlotCall.trajectory [⟨100, 0, 0⟩] (some ("a")) [],
        PlotCall.trajectory [⟨10, 0, 0⟩] none []] rfl).2⟩

theorem Vec3.add_dot (u v r : Vec3) : (u + v).dot r = u.dot r + v.dot r := by
  show Vec3.dot ⟨u.x + v.x, u.y + v.y, u.z + v.z⟩ r = _
  simp only [Vec3.dot]
  ring

theorem Vec3.smul_dot (c : ℚ) (u r : Vec3) : (c • u).dot r = c * u.dot r := by
  show Vec3.dot ⟨c * u.x, c * u.y, c * u.z⟩ r = _
  simp only [Vec3.dot]
  ring

theorem Vec3.sub_dot (u v r : Vec3) : (u - v).dot r = u.dot r - v.dot r := by
  show Vec3.dot ⟨u.x - v.x, u.y - v.y, u.z - v.z⟩ r = _
  simp only [Vec3.dot]
  ring

theorem Vec3.dot_comm (u v : Vec3) : u.dot v = v.dot u := by
  simp only [Vec3.dot]
  ring

theorem project_point (p q w : Vec3) (hp : p.normSq = 1) (hq : q.normSq = 1)
    (hpq : p.dot q = 0) (hqw : q.dot w = 0) (hwp : w.dot p = 0) (a b : ℚ) :
    ((a • p + b • q) - ((a • p + b • q).dot w) • w).dot p = a ∧
    ((a • p + b • q) - ((a • p + b • q).dot w) • w).dot q = b := by
  have hpw : p.dot w = 0 := by
    rw [Vec3.dot_comm]
    exact hwp
  have hqp : q.dot p = 0 := by
    rw [Vec3.dot_comm]
    exact hpq
  have hrw : (a • p + b • q).dot w = 0 := by
    rw [Vec3.add_dot, Vec3.smul_dot, Vec3.smul_dot, hpw, hqw]
    ring
  constructor
  · rw [Vec3.sub_dot, hrw, Vec3.smul_dot, Vec3.add_dot, Vec3.smul_dot,
      Vec3.smul_dot, hqp, show p.dot p = p.normSq from rfl, hp]
    ring
  · rw [Vec3.sub_dot, hrw, Vec3.smul_dot, Vec3.add_dot, Vec3.smul_dot,
      Vec3.smul_dot, hpq, show q.dot q = q.normSq from rfl, hq]
    ring

/-- **C6.** The frame-setting operation of `Mixin2D` stores the frame when
the three vectors are orthonormal, and otherwise fails with a descriptive
error (`"Vectors must be unit."` / `"Vectors must be mutually orthogonal."`)
returning the state — and hence the previously stored frame — unchanged.
The source's `np.allclose` tolerance is modelled as exact rational equality;
for unit length, `norm v = 1` is stated on the squared norm. -/
theorem C6_set_frame_validation (s : Mixin2DState) (p q w : Vec3) :
    ((p.normSq = 1 ∧ q.normSq = 1 ∧ w.normSq = 1) ∧
      (p.dot q = 0 ∧ q.dot w = 0 ∧ w.dot p = 0) →
      setFrame s p q w =
        ({ s with frame := some (p, q, w) }, Except.ok ())) ∧
    (¬((p.normSq = 1 ∧ q.normSq = 1 ∧ w.normSq = 1) ∧
      (p.dot q = 0 ∧ q.dot w = 0 ∧ w.dot p = 0)) →
      (setFrame s p q w).1 = s ∧
      ∃ e, (setFrame s p q w).2 = Except.error e) := by
  constructor
  · rintro ⟨hu, ho⟩
    unfold setFrame
    rw [if_neg (not_not_intro hu), if_neg (not_not_intro ho)]
  · intro h
    by_cases hu : p.normSq = 1 ∧ q.normSq = 1 ∧ w.normSq = 1
    · by_cases ho : p.dot q = 0 ∧ q.dot w = 0 ∧ w.dot p = 0
      · exact absurd ⟨hu, ho⟩ h
      · unfold setFrame
        rw [if_neg (not_not_intro hu), if_pos ho]
        exact ⟨rfl, "Vectors must be mutually orthogonal.", rfl⟩
    · unfold setFrame
      rw [if_pos hu]
      exact ⟨rfl, "Vectors must be unit.", rfl⟩

/-- Witness for C6: the standard basis is accepted and stored; a non-unit
first vector is rejected with an error, leaving the (unset) frame
unchanged. -/
theorem C6_witness :
    setFrame { frame := none, trajectories := [] } ⟨1, 0, 0⟩ ⟨0, 1, 0⟩
        ⟨0, 0, 1⟩ =
      ({ frame := some (⟨1, 0, 0⟩, ⟨0, 1, 0⟩, ⟨0, 0, 1⟩), trajectories := [] },
        Except.ok ()) ∧
    (setFrame { frame := none, trajectories := [] } ⟨2, 0, 0⟩ ⟨0, 1, 0⟩
        ⟨0, 0, 1⟩).1 = { frame := none, trajectories := [] } ∧
    ∃ e, (setFrame { frame := none, trajectories := [] } ⟨2, 0, 0⟩ ⟨0, 1, 0⟩
        ⟨0, 0, 1⟩).2 = Except.error e := by
  refine ⟨?_, ?_⟩
  · exact (C6_set_frame_validation { frame := none, trajectories := [] }
      ⟨1, 0, 0⟩ ⟨0, 1, 0⟩ ⟨0, 0, 1⟩).1
      (by constructor <;> refine ⟨?_, ?_, ?_⟩ <;>
        norm_num [Vec3.normSq, Vec3.dot])
  · exact (C6_set_frame_validation { frame := none, trajectories := [] }
      ⟨2, 0, 0⟩ ⟨0, 1, 0⟩ ⟨0, 0, 1⟩).2
      (fun hcon => absurd hcon.1.1 (by norm_num [Vec3.normSq, Vec3.dot]))

/-- **C7.** For an orthonormal frame `(p, q, w)` and any finite sequence of
points lying in the plane spanned by `p` and `q` (each of the form
`a·p + b·q`), `_project` returns exactly the `(p, q)` coordinate pairs
`(a, b)` of the points, unchanged. -/
theorem C7_project_roundtrip (p q w : Vec3) (hp : p.normSq = 1)
    (hq : q.normSq = 1) (hw : w.normSq = 1) (hpq : p.dot q = 0)
    (hqw : q.dot w = 0) (hwp : w.dot p = 0) (coeffs : List (ℚ × ℚ)) :
    project (p, q, w) (coeffs.map (fun ab => ab.1 • p + ab.2 • q)) =
      (coeffs.map (fun ab => ab.1), coeffs.map (fun ab => ab.2)) := by
  simp only [project, List.map_map, Prod.mk.injEq]
  constructor <;>
    refine List.map_congr_left ?_ <;>
    intro ab _
  · exact (project_point p q w hp hq hpq hqw hwp ab.1 ab.2).1
  · exact (project_point p q w hp hq hpq hqw hwp ab.1 ab.2).2

/-- Witness for C7: the standard basis frame with in-plane points
`2·p + 3·q` and `-1·p + 5·q` projects back to `[(2, 3), (-1, 5)]`. -/
theorem C7_witness :
    project (⟨1, 0, 0⟩, ⟨0, 1, 0⟩, ⟨0, 0, 1⟩)
      ([((2 : ℚ), (3 : ℚ)), ((-1 : ℚ), (5 : ℚ))].map
        (fun ab => ab.1 • (⟨1, 0, 0⟩ : Vec3) + ab.2 • (⟨0, 1, 0⟩ : Vec3))) =
      ([((2 : ℚ), (3 : ℚ)), ((-1 : ℚ), (5 : ℚ))].map (fun ab => ab.1),
        [((2 : ℚ), (3 : ℚ)), ((-1 : ℚ), (5 : ℚ))].map (fun ab => ab.2)) :=
  C7_project_roundtrip ⟨1, 0, 0⟩ ⟨0, 1, 0⟩ ⟨0, 0, 1⟩
    (by norm_num [Vec3.normSq, Vec3.dot]) (by norm_num [Vec3.normSq, Vec3.dot])
    (by norm_num [Vec3.normSq, Vec3.dot]) (by norm_num [Vec3.normSq, Vec3.dot])
    (by norm_num [Vec3.normSq, Vec3.dot]) (by norm_num [Vec3.normSq, Vec3.dot])
    [((2 : ℚ), (3 : ℚ)), ((-1 : ℚ), (5 : ℚ))]

/-- Counterexample to **C8** as stated: with attractor radius 2, physical
radius 1 and a position at distance 3, the code draws the marker with radius
`min(2 × 0.5, (3 − 1) × 0.5) = 1`, not "half of the minimum of
(attractor radius × 0.5) and ((distance − R) × 0.5)", which would be 0.5. -/
theorem C8_counterexample :
    plotPositionRadius 2 { name := "B", R := 1 } ⟨3, 0, 0⟩ ≠
      (min ((2 : ℝ) * 0.5)
        ((Vec3.norm ⟨3, 0, 0⟩ - (((1 : ℚ) : ℝ))) * 0.5)) / 2 := by
  rw [plotPositionRadius, Vec3.norm_axis 3 (by norm_num)]
  norm_num

/-- **C8 (amended).** For every call to `_plot_position` with the attractor
set, the radius of the drawn position marker equals the minimum of
(attractor radius × 0.5) and ((distance of the position from origin −
attractor physical radius) × 0.5) — that is, *half of the minimum* of the
attractor radius and (distance − physical radius), with no additional
halving. -/
theorem C8_position_marker_radius (attractor_radius : ℝ) (a : Body)
    (position : Vec3) :
    plotPositionRadius attractor_radius a position =
      min attractor_radius (Vec3.norm position - ((a.R : ℚ) : ℝ)) / 2 := by
  rw [plotPositionRadius]
  rcases le_total attractor_radius (Vec3.norm position - ((a.R : ℚ) : ℝ)) with
    h | h
  · rw [min_eq_left (by linarith), min_eq_left h]
    ring
  · rw [min_eq_right (by linarith), min_eq_right h]
    ring

theorem time_range_length (start endEpoch : ℚ) (n : ℕ) :
    (time_range start n endEpoch).length = n := by
  simp only [time_range, List.length_map, List.length_range]

theorem time_range_getElem? (start endEpoch : ℚ) (n i : ℕ) (hi : i < n) :
    (time_range start n endEpoch)[i]? =
      some (start + (endEpoch - start) * (i : ℚ) / ((n : ℚ) - 1)) := by
  simp only [time_range, List.getElem?_map]
  rw [List.getElem?_range hi]
  rfl

theorem time_range_head? (start endEpoch : ℚ) (n : ℕ) (hn : 1 ≤ n) :
    (time_range start n endEpoch).head? = some start := by
  rw [List.head?_eq_getElem?,
    time_range_getElem? start endEpoch n 0 (by omega)]
  norm_num

theorem time_range_getLast? (start endEpoch : ℚ) (n : ℕ) (hn : 2 ≤ n) :
    (time_range start n endEpoch).getLast? = some endEpoch := by
  have hne : ((n : ℚ) - 1) ≠ 0 := by
    have h2 : (2 : ℚ) ≤ (n : ℚ) := by exact_mod_cast hn
    intro h0
    linarith
  rw [List.getLast?_eq_getElem?, time_range_length,
    time_range_getElem? start endEpoch n (n - 1) (by omega)]
  congr 1
  rw [Nat.cast_sub (by omega), Nat.cast_one, mul_div_assoc, div_self hne]
  ring

theorem time_range_spacing (start endEpoch : ℚ) (n i : ℕ) (hi : i + 1 < n) :
    (time_range start n endEpoch).getD (i + 1) 0 -
      (time_range start n endEpoch).getD i 0 =
      (endEpoch - start) / ((n : ℚ) - 1) := by
  rw [List.getD_eq_getElem?_getD, List.getD_eq_getElem?_getD,
    time_range_getElem? start endEpoch n (i + 1) hi,
    time_range_getElem? start endEpoch n i (by omega)]
  simp only [Option.getD_some]
  push_cast
  ring

/-- **C9.** For every body with (estimated) period `P` and every epoch `E`,
a successful `plot_body_orbit` appends one trajectory whose coordinates are
the ephemeris samples over the evenly spaced epoch range of `num_points`
samples spanning exactly `[E, E + P]` (first epoch `E`, last epoch `E + P`,
consecutive spacing `P / (num_points − 1)`), whose stored "current position"
is the first coordinate sample, and which is marked non-dashed. -/
theorem C9_plot_body_orbit_sampling (s : PlotterState) (b : SolarBody)
    (E : ℚ) (lbl : Option String) (colors : List String)
    (hn : 2 ≤ s.num_points)
    (hok : (plotBodyOrbitCall s b E lbl colors).2 = Except.ok ()) :
    (plotBodyOrbitCall s b E lbl colors).1.trajectories =
      s.trajectories ++
        [{ coordinates :=
             (time_range E s.num_points (E + b.mean_period E)).map
               (b.ephem b.parent s.plane)
           position := some (b.ephem b.parent s.plane E)
           label := generate_label E (some (pyOr lbl b.name))
           colors := colors, dashed := false }] ∧
    (time_range E s.num_points (E + b.mean_period E)).length = s.num_points ∧
    (time_range E s.num_points (E + b.mean_period E)).head? = some E ∧
    (time_range E s.num_points (E + b.mean_period E)).getLast? =
      some (E + b.mean_period E) ∧
    (∀ i, i + 1 < s.num_points →
      (time_range E s.num_points (E + b.mean_period E)).getD (i + 1) 0 -
        (time_range E s.num_points (E + b.mean_period E)).getD i 0 =
        b.mean_period E / ((s.num_points : ℚ) - 1)) := by
  have hok' : (runCall s (PlotCall.bodyOrbit b E lbl colors)).2 =
      Except.ok () := hok
  obtain ⟨ht, -, -, -⟩ := runCall_ok s (PlotCall.bodyOrbit b E lbl colors) hok'
  have ht' : (plotBodyOrbitCall s b E lbl colors).1.trajectories =
      s.trajectories ++
        [callTraj s.num_points s.plane (PlotCall.bodyOrbit b E lbl colors)] :=
    ht
  have hhead :
      ((time_range E s.num_points (E + b.mean_period E)).map
        (b.ephem b.parent s.plane)).headD ⟨0, 0, 0⟩ =
        b.ephem b.parent s.plane E := by
    rw [List.headD_eq_head?, List.head?_map,
      time_range_head? E (E + b.mean_period E) s.num_points (by omega)]
    rfl
  refine ⟨?_, time_range_length E (E + b.mean_period E) s.num_points,
    time_range_head? E (E + b.mean_period E) s.num_points (by omega),
    time_range_getLast? E (E + b.mean_period E) s.num_points hn,
    fun i hi => ?_⟩
  · rw [ht']
    simp only [callTraj]
    rw [hhead]
  · rw [time_range_spacing E (E + b.mean_period E) s.num_points i hi]
    ring_nf

/-- Witness for C9: a body with period 10 and epoch 0 on a default plotter
(150 points); the sampled range spans exactly `[0, 10]`. -/
theorem C9_witness :
    2 ≤ (PlotterState.init 150 none).num_points ∧
    (plotBodyOrbitCall (PlotterState.init 150 none)
      { name := "Moon", parent := { name := "Earth", R := 6371 },
        mean_period := fun _ => 10, ephem := fun _ _ t => ⟨t, 0, 0⟩ }
      0 none []).2 = Except.ok () ∧
    ((plotBodyOrbitCall (PlotterState.init 150 none)
      { name := "Moon", parent := { name := "Earth", R := 6371 },
        mean_period := fun _ => 10, ephem := fun _ _ t => ⟨t, 0, 0⟩ }
      0 none []).1.trajectories =
      (PlotterState.init 150 none).trajectories ++
        [{ coordinates :=
             (time_range 0 (PlotterState.init 150 none).num_points
               (0 + 10)).map (fun (t : ℚ) => (⟨t, 0, 0⟩ : Vec3))
           position := some (⟨0, 0, 0⟩ : Vec3)
           label := generate_label 0 (some (pyOr none "Moon"))
           colors := [], dashed := false }] ∧
    (time_range 0 (PlotterState.init 150 none).num_points (0 + 10)).length =
      (PlotterState.init 150 none).num_points ∧
    (time_range 0 (PlotterState.init 150 none).num_points (0 + 10)).head? =
      some 0 ∧
    (time_range 0 (PlotterState.init 150 none).num_points
      (0 + 10)).getLast? = some (0 + 10) ∧
    (∀ i, i + 1 < (PlotterState.init 150 none).num_points →
      (time_range 0 (PlotterState.init 150 none).num_points
        (0 + 10)).getD (i + 1) 0 -
        (time_range 0 (PlotterState.init 150 none).num_points
          (0 + 10)).getD i 0 =
        10 / (((PlotterState.init 150 none).num_points : ℚ) - 1))) :=
  ⟨by decide, rfl,
    C9_plot_body_orbit_sampling (PlotterState.init 150 none)
      { name := "Moon", parent := { name := "Earth", R := 6371 },
        mean_period := fun _ => 10, ephem := fun _ _ t => ⟨t, 0, 0⟩ }
      0 none [] (by decide) rfl⟩

/-- **C10.** Every successful `plot_trajectory` stores `str(label)` as the
trajectory's label: a string label is stored verbatim, and an omitted
(`None`) label is stored as the literal string `"None"` rather than as an
absent label. -/
theorem C10_plot_trajectory_label (s : PlotterState) (cs : List Vec3)
    (lbl : Option String) (colors : List String)
    (hok : (plotTrajectoryCall s cs lbl colors).2 = Except.ok ()) :
    ∃ t, (plotTrajectoryCall s cs lbl colors).1.trajectories =
        s.trajectories ++ [t] ∧
      (∀ x, lbl = some x → t.label = x) ∧
      (lbl = none → t.label = "None") := by
  have hok' : (runCall s (PlotCall.trajectory cs lbl colors)).2 =
      Except.ok () := hok
  obtain ⟨ht, -, -, -⟩ := runCall_ok s (PlotCall.trajectory cs lbl colors) hok'
  refine ⟨callTraj s.num_points s.plane (PlotCall.trajectory cs lbl colors),
    ht, ?_, ?_⟩
  · intro x hx
    simp [callTraj, pyStr, hx]
  · intro hx
    simp [callTraj, pyStr, hx]

/-- Witness for C10: a `plot_trajectory` call with the label omitted stores
the literal label `"None"`. -/
theorem C10_witness :
    (plotTrajectoryCall
      (setAttractor (PlotterState.init 150 none)
        { name := "Earth", R := 6371 }).1 [⟨5, 0, 0⟩] none []).2 =
      Except.ok () ∧
    ∃ t, (plotTrajectoryCall
        (setAttractor (PlotterState.init 150 none)
          { name := "Earth", R := 6371 }).1 [⟨5, 0, 0⟩] none
        []).1.trajectories =
        (setAttractor (PlotterState.init 150 none)
          { name := "Earth", R := 6371 }).1.trajectories ++ [t] ∧
      (∀ x, (none : Option String) = some x → t.label = x) ∧
      ((none : Option String) = none → t.label = "None") :=
  ⟨rfl,
    C10_plot_trajectory_label
      (setAttractor (PlotterState.init 150 none)
        { name := "Earth", R := 6371 }).1 [⟨5, 0, 0⟩] none [] rfl⟩
